import Mathlib

/-!
Verification of the `glm` (github-label-manager) core, a shallow embedding of
`src/glm/core.py`. Each command handler is translated into a pure Lean
function over an explicit environment: the parsed CLI arguments, the
interactive input stream, and the observed HTTP outcome. External
collaborators (the HTTP transport, terminal color libraries) appear only at
the boundary: the transport as an `HttpOutcome` value, the color libraries as
function parameters.
-/

namespace Glm

/-- A repository label as decoded from the JSON wire format. -/
structure Label where
  name : String
  color : String
deriving DecidableEq, Repr

/-- A validation error entry decoded from an error response body
(`res.get ("errors", [])` in the source). -/
structure ValidationError where
  field : String
  code : String
deriving DecidableEq, Repr

/-- Parsed JSON body of an error response: `res.get ("message", "")` reads
`message` (absent key gives the empty string) and `res.get ("errors", [])`
reads the error entries. -/
structure ErrBody where
  message : Option String
  errors : List ValidationError
deriving DecidableEq, Repr

/-- The outcome of one HTTP request as the handler observes it:
either the transport library raises (connection failure), or a response
arrives with a status code and a body; `body = none` means the body is not
decodable JSON, so `r.json ()` raises. -/
inductive HttpOutcome (β : Type) where
  | transportError
  | response (status : Nat) (body : Option β)
deriving DecidableEq, Repr

/-- How a handler invocation ends: a plain return, an explicit `sys.exit`
with a code, or an uncaught exception (named by the Python exception class)
escaping the handler. -/
inductive ExitKind where
  | normalRet
  | exited (code : Nat)
  | crashed (exc : String)
deriving DecidableEq, Repr

/-! ### Python string primitives used by the source -/

/-- Python `str.lower` restricted to the ASCII range, which is all the
source ever compares against. -/
def pyLower (s : String) : String := ⟨s.data.map Char.toLower⟩

/-- The whitespace characters stripped by Python `str.strip ()`. -/
def pyIsSpace (c : Char) : Bool :=
  c = ' ' || c = '\t' || c = '\n' || c = '\r' || c = '\x0b' || c = '\x0c'

/-- Drop Python whitespace from the front of a character list. -/
def lstripL (l : List Char) : List Char := l.dropWhile pyIsSpace

/-- Drop Python whitespace from the back of a character list. -/
def rstripL (l : List Char) : List Char := (l.reverse.dropWhile pyIsSpace).reverse

/-- Python `str.strip ()`: whitespace removed from both ends. -/
def pyStrip (s : String) : String := ⟨lstripL (rstripL s.data)⟩

/-- Python `' '.join (words)`. -/
def joinWords (ws : List String) : String := String.intercalate " " ws

/-- Boolean substring test, `needle in hay` on Python strings. -/
def containsSeq (needle : List Char) : List Char → Bool
  | [] => needle.isEmpty
  | c :: rest => needle.isPrefixOf (c :: rest) || containsSeq needle rest

/-- Python `str.center (width)`: the string padded with spaces to `width`,
the extra space (per CPython) split as `left = marg / 2 + (marg &&& width &&& 1)`. -/
def pyCenter (s : String) (width : Nat) : String :=
  if s.length ≥ width then s
  else
    let marg := width - s.length
    let left := marg / 2 + (marg &&& width &&& 1)
    ⟨List.replicate left ' ' ++ s.data ++ List.replicate (marg - left) ' '⟩

/-! ### Token store -/

/-- Result of running `auth_command`: the new contents of the token file and
the lines printed. -/
structure AuthResult where
  fileContents : String
  output : List String
deriving DecidableEq, Repr

/-- `auth_command` from the source: `print (args.token, file=f)` writes the
token followed by a single newline, then a confirmation is printed. -/
def auth_command (token : String) : AuthResult :=
  { fileContents := token ++ "\n"
    output := ["🚀  Authentication stored!"] }

/-- Modelled from the spec: `utils.get_access_token` (the Token Store
`load`) is not under `src/`; per the spec it reads the token file and trims
(strips) the content. -/
def get_access_token (fileContents : String) : String := pyStrip fileContents

/-! ### delete command -/

/-- Environment of one `delete_command` run: the force flag (`-f`, `--force`), the
stream of interactive answers, and the DELETE outcome (the body is never
decoded by the source). -/
structure DeleteEnv where
  force : Bool
  stdin : List String
  net : HttpOutcome Unit
deriving DecidableEq, Repr

/-- Result of running `delete_command`: how many confirmation prompts were
written, how many DELETE requests were attempted, the lines printed, and the
exit kind. -/
structure DeleteResult where
  prompts : Nat
  netCalls : Nat
  output : List String
  exit : ExitKind
deriving DecidableEq, Repr

/-- The source confirmation loop: each iteration writes one prompt and reads
one answer; `""`, `"n"`, `"no"` (lowercased) decide `false`, `"y"`, `"yes"`
decide `true`, anything else repeats. Returns the number of prompts written
and the decision; `none` means the stream ran dry and `input ()` raised
`EOFError`. -/
def promptLoop : List String → Nat × Option Bool
  | [] => (1, none)
  | c :: rest =>
    let choice := pyLower c
    if choice = "" || choice = "n" || choice = "no" then (1, some false)
    else if choice = "y" || choice = "yes" then (1, some true)
    else
      let r := promptLoop rest
      (r.1 + 1, r.2)

/-- Message printed by `delete_command` once a response status is seen:
204 is success, 404 is the distinct does-not-exist message naming the label
and the repository, and anything else is the generic failure line (which the
source spells with the word create). -/
def deleteMessage (status : Nat) (name repo : String) : String :=
  if status = 204 then "🗑  Label successfully removed"
  else if status = 404 then
    "🚫  The label \x27" ++ name ++ "\x27 doesn\x27t exist in " ++ repo ++ "."
  else "❌  Failed to create label."

/-- `delete_command` from the source: with `--force` the loop body never
runs; otherwise the prompt loop decides. On a negative decision the handler
returns before any network call; on a positive one a single DELETE is
issued and its status classified by `deleteMessage`. -/
def delete_command (repo : String) (nameWords : List String) (env : DeleteEnv) :
    DeleteResult :=
  let name := joinWords nameWords
  let d := if env.force then ((0 : Nat), some true) else promptLoop env.stdin
  match d.2 with
  | none => { prompts := d.1, netCalls := 0, output := [], exit := .crashed "EOFError" }
  | some false => { prompts := d.1, netCalls := 0, output := [], exit := .normalRet }
  | some true =>
    match env.net with
    | .transportError =>
      { prompts := d.1, netCalls := 1, output := [], exit := .crashed "ConnectionError" }
    | .response status _ =>
      { prompts := d.1, netCalls := 1, output := [deleteMessage status name repo]
        exit := .normalRet }

/-! ### list command -/

/-- One printed row of the list output, the five fields of the source format
string: the background code `x256.from_hex (c)`, the foreground
`utils.text_color (c)` (both external collaborators, passed in as
functions), the name centered to the per-invocation width, and the optional
color suffix. -/
structure RenderedRow where
  bgCode : Nat
  fgColor : String
  centered : String
  suffix : String
deriving DecidableEq, Repr

/-- Result of running `list_command`: the rendered label rows, any plain
messages, the number of GET requests attempted, and the exit kind. -/
structure ListResult where
  rows : List RenderedRow
  messages : List String
  netCalls : Nat
  exit : ExitKind
deriving DecidableEq, Repr

/-- Python `max (names, key=len)` with accumulator: keeps the current
element unless a strictly longer one appears, so the first longest element
wins. -/
def pyMaxKeyLen (a : String) : List String → String
  | [] => a
  | x :: xs => pyMaxKeyLen (if x.length > a.length then x else a) xs

/-- The source centering width: `len (max ([x.name for x in res], key=len))`.
Only evaluated on a non-empty response (the empty case exits earlier);
the `[]` branch is dead code kept total. -/
def listSpacing (res : List Label) : Nat :=
  match res.map Label.name with
  | [] => 0
  | n :: ns => (pyMaxKeyLen n ns).length

/-- `list_command` from the source: one GET, `r.json ()` decoded (the
status code is never inspected); an empty list prints the no-labels message
and exits 0; otherwise each row is rendered with the shared centering
width. `fromHex` stands for `x256.from_hex` and `textColor` for
`utils.text_color`, both outside the embedded core. -/
def list_command (showColors : Bool)
    (fromHex : String → Nat) (textColor : String → String)
    (net : HttpOutcome (List Label)) : ListResult :=
  match net with
  | .transportError =>
    { rows := [], messages := [], netCalls := 1, exit := .crashed "ConnectionError" }
  | .response _ body =>
    match body with
    | none =>
      { rows := [], messages := [], netCalls := 1, exit := .crashed "JSONDecodeError" }
    | some res =>
      if res.length = 0 then
        { rows := [], messages := ["❗  No labels found"], netCalls := 1
          exit := .exited 0 }
      else
        let spacing := listSpacing res
        { rows := res.map fun row =>
            { bgCode := fromHex row.color
              fgColor := textColor row.color
              centered := pyCenter row.name spacing
              suffix := if showColors then "[#" ++ row.color ++ "]" else "" }
          messages := [], netCalls := 1, exit := .normalRet }

/-! ### create command -/

/-- Modelled from the spec: `utils.parse_validation_error` is not under
`src/`; per the spec it renders one `ValidationError` into one
human-readable line, a specific line for a uniqueness violation and a
generic fallback per error code otherwise. -/
def parse_validation_error (label_name : String) (e : ValidationError) : String :=
  if e.code = "already_exists" then
    "❌  The label \x27" ++ label_name ++ "\x27 already exists."
  else "❌  Validation error \x27" ++ e.code ++ "\x27 on field \x27" ++ e.field ++ "\x27."

/-- The test `'Validation Failed' in res.get ('message', '')`. -/
def reportsValidationFailed (msg : String) : Bool :=
  containsSeq "Validation Failed".data msg.data

/-- The failure lines built by `create_command` and `update_command` from a
decoded error body: the validation error entries rendered one line each when
the message reports `Validation Failed`, and the given generic line when no
entry was rendered. -/
def failureLines (generic : String) (name : String) (body : ErrBody) :
    List String :=
  let errors :=
    if reportsValidationFailed (body.message.getD "") then
      body.errors.map (parse_validation_error name)
    else []
  if errors.length = 0 then [generic] else errors

/-- The generic failure line of `create_command` (also printed by
`delete_command` for statuses other than 204 and 404). -/
def createGenericLine : String := "❌  Failed to create label."

/-- The POST payload of `create_command`. -/
structure CreatePayload where
  name : String
  color : String
deriving DecidableEq, Repr

/-- Result of running `create_command`: the payload sent (`none` when no
request was issued), the lines printed, the number of POST requests
attempted, and the exit kind. -/
structure CreateResult where
  payload : Option CreatePayload
  output : List String
  netCalls : Nat
  exit : ExitKind
deriving DecidableEq, Repr

/-- `create_command` from the source: one POST with
`{name: ' '.join (args.name), color: args.color}`; status 201 confirms,
any other status decodes the body and prints the failure lines. -/
def create_command (nameWords : List String) (color : String)
    (net : HttpOutcome ErrBody) : CreateResult :=
  let name := joinWords nameWords
  let payload : CreatePayload := { name := name, color := color }
  match net with
  | .transportError =>
    { payload := some payload, output := [], netCalls := 1
      exit := .crashed "ConnectionError" }
  | .response status body =>
    if status = 201 then
      { payload := some payload, output := ["✅  Label successfully created"]
        netCalls := 1, exit := .normalRet }
    else
      match body with
      | none =>
        { payload := some payload, output := [], netCalls := 1
          exit := .crashed "JSONDecodeError" }
      | some res =>
        { payload := some payload, output := failureLines createGenericLine name res
          netCalls := 1, exit := .normalRet }

/-! ### update command -/

/-- Python truthiness of `args.color` (`None` and the empty string are
falsy). -/
def truthyStr : Option String → Bool
  | none => false
  | some s => !(s = "")

/-- Python truthiness of `args.name` (`None` and the empty list are falsy;
the CLI never yields an empty list for a provided flag, but the test is
truthiness in the source). -/
def truthyWords : Option (List String) → Bool
  | none => false
  | some l => !l.isEmpty

/-- The PATCH payload of `update_command`: the dict comprehension keeps
`name` and `color` only when truthy, and joins the name words. -/
structure UpdatePayload where
  name : Option String
  color : Option String
deriving DecidableEq, Repr

/-- Result of running `update_command`: the payload sent (`none` when no
request was issued), the lines printed, the number of PATCH requests
attempted, and the exit kind. -/
structure UpdateResult where
  payload : Option UpdatePayload
  output : List String
  netCalls : Nat
  exit : ExitKind
deriving DecidableEq, Repr

/-- The generic failure line of `update_command`. -/
def updateGenericLine : String := "❌  Failed to update label."

/-- `update_command` from the source: `if not any ([args.color, args.name])`
prints a usage message and exits 1 before any request; otherwise the dict
comprehension builds the payload from the truthy fields, one PATCH is
issued, status 200 confirms and any other status prints the failure lines. -/
def update_command (labelNameWords : List String)
    (nameArg : Option (List String)) (colorArg : Option String)
    (net : HttpOutcome ErrBody) : UpdateResult :=
  if !(truthyStr colorArg || truthyWords nameArg) then
    { payload := none
      output := ["🚫  You must pass either a --name and/or --color"]
      netCalls := 0, exit := .exited 1 }
  else
    let name := joinWords labelNameWords
    let payload : UpdatePayload :=
      { name :=
          match nameArg with
          | some l => if !l.isEmpty then some (joinWords l) else none
          | none => none
        color :=
          match colorArg with
          | some c => if !(c = "") then some c else none
          | none => none }
    match net with
    | .transportError =>
      { payload := some payload, output := [], netCalls := 1
        exit := .crashed "ConnectionError" }
    | .response status body =>
      if status = 200 then
        { payload := some payload, output := ["✅  Label successfully updated"]
          netCalls := 1, exit := .normalRet }
      else
        match body with
        | none =>
          { payload := some payload, output := [], netCalls := 1
            exit := .crashed "JSONDecodeError" }
        | some res =>
          { payload := some payload, output := failureLines updateGenericLine name res
            netCalls := 1, exit := .normalRet }

/-! ### Lemmas about the confirmation loop -/

/-- A first answer that is neither a yes nor a no repeats the prompt: the
loop result on `c :: rest` is the result on `rest` with one more prompt. -/
theorem promptLoop_cons_other (c : String) (rest : List String)
    (hno : ¬(pyLower c = "" ∨ pyLower c = "n" ∨ pyLower c = "no"))
    (hyes : ¬(pyLower c = "y" ∨ pyLower c = "yes")) :
    promptLoop (c :: rest) = ((promptLoop rest).1 + 1, (promptLoop rest).2) := by
  push_neg at hno hyes
  obtain ⟨h1, h2, h3⟩ := hno
  obtain ⟨h4, h5⟩ := hyes
  simp [promptLoop, h1, h2, h3, h4, h5]

/-- Every run of `delete_command` attempts at most one DELETE request. -/
theorem delete_command_netCalls_le_one (repo : String) (nw : List String)
    (env : DeleteEnv) : (delete_command repo nw env).netCalls ≤ 1 := by
  obtain ⟨force, stdin, net⟩ := env
  cases force <;> simp only [delete_command]
  · rcases h : (promptLoop stdin).2 with _ | b
    · simp [h]
    · cases b <;> cases net <;> simp [h]
  · cases net <;> simp

/-- Claim C1: for the delete command, with the force flag set the handler
performs exactly one network call and never prompts; without force, a first
answer equal (case-insensitively) to n, no, or the empty string returns
before any network call, an answer equal to y or yes proceeds to issue the
DELETE request, and any other answer repeats the prompt. -/
theorem c1_delete_confirmation :
    (∀ (repo : String) (nw stdin : List String) (net : HttpOutcome Unit),
      (delete_command repo nw ⟨true, stdin, net⟩).prompts = 0 ∧
      (delete_command repo nw ⟨true, stdin, net⟩).netCalls = 1) ∧
    (∀ (repo : String) (nw : List String) (c : String) (rest : List String)
      (net : HttpOutcome Unit),
      (pyLower c = "" ∨ pyLower c = "n" ∨ pyLower c = "no") →
      delete_command repo nw ⟨false, c :: rest, net⟩ =
        { prompts := 1, netCalls := 0, output := [], exit := .normalRet }) ∧
    (∀ (repo : String) (nw : List String) (c : String) (rest : List String)
      (net : HttpOutcome Unit),
      (pyLower c = "y" ∨ pyLower c = "yes") →
      (delete_command repo nw ⟨false, c :: rest, net⟩).netCalls = 1) ∧
    (∀ (repo : String) (nw : List String) (c : String) (rest : List String)
      (net : HttpOutcome Unit),
      ¬(pyLower c = "" ∨ pyLower c = "n" ∨ pyLower c = "no") →
      ¬(pyLower c = "y" ∨ pyLower c = "yes") →
      delete_command repo nw ⟨false, c :: rest, net⟩ =
        { prompts := (delete_command repo nw ⟨false, rest, net⟩).prompts + 1
          netCalls := (delete_command repo nw ⟨false, rest, net⟩).netCalls
          output := (delete_command repo nw ⟨false, rest, net⟩).output
          exit := (delete_command repo nw ⟨false, rest, net⟩).exit }) := by
  refine ⟨?_, ?_, ?_, ?_⟩
  · intro repo nw stdin net
    cases net <;> simp [delete_command]
  · intro repo nw c rest net h
    rcases h with h | h | h <;> simp [delete_command, promptLoop, h]
  · intro repo nw c rest net h
    rcases h with h | h <;> simp [delete_command, promptLoop, h] <;>
      cases net <;> simp
  · intro repo nw c rest net hno hyes
    simp only [delete_command]
    rw [promptLoop_cons_other c rest hno hyes]
    rcases h : (promptLoop rest).2 with _ | b
    · simp [h]
    · cases b <;> cases net <;> simp [h]

/-- Witness for C1: the abort, proceed and repeat branches at concrete
inputs. -/
theorem c1_delete_confirmation_witness :
    (delete_command "o/r" ["bug"] ⟨false, ["N"], .response 204 ()⟩ =
      { prompts := 1, netCalls := 0, output := [], exit := .normalRet }) ∧
    (delete_command "o/r" ["bug"] ⟨false, ["YES"], .response 204 ()⟩).netCalls = 1 ∧
    (delete_command "o/r" ["bug"] ⟨false, ["maybe"], .response 204 ()⟩ =
      { prompts := 2, netCalls := 0, output := [], exit := .crashed "EOFError" }) := by
  refine ⟨?_, ?_, ?_⟩
  · exact c1_delete_confirmation.2.1 "o/r" ["bug"] "N" [] (.response 204 ())
      (Or.inr (Or.inl (by decide)))
  · exact c1_delete_confirmation.2.2.1 "o/r" ["bug"] "YES" [] (.response 204 ())
      (Or.inr (by decide))
  · have h := c1_delete_confirmation.2.2.2 "o/r" ["bug"] "maybe" [] (.response 204 ())
      (by decide) (by decide)
    exact h.trans (by decide)

/-- Claim C4: every delete invocation that reaches the network call is
classified solely by HTTP status: 204 prints the success message, 404
prints the distinct does-not-exist message naming the label and the
repository, and every other status prints the generic failure line; exactly
one request is issued, with no retry. -/
theorem c4_delete_status_classification :
    (∀ (repo : String) (nw : List String) (env : DeleteEnv) (st : Nat) (b : Option Unit),
      env.net = .response st b →
      (delete_command repo nw env).netCalls = 1 →
      (delete_command repo nw env).output = [deleteMessage st (joinWords nw) repo]) ∧
    (∀ (repo : String) (nw : List String) (env : DeleteEnv),
      (delete_command repo nw env).netCalls ≤ 1) ∧
    (∀ n rp : String, deleteMessage 204 n rp = "🗑  Label successfully removed") ∧
    (∀ n rp : String, deleteMessage 404 n rp =
      "🚫  The label \x27" ++ n ++ "\x27 doesn\x27t exist in " ++ rp ++ ".") ∧
    (∀ (st : Nat) (n rp : String), st ≠ 204 → st ≠ 404 →
      deleteMessage st n rp = "❌  Failed to create label.") := by
  refine ⟨?_, delete_command_netCalls_le_one, ?_, ?_, ?_⟩
  · intro repo nw env st b hnet hcall
    obtain ⟨force, stdin, net⟩ := env
    subst hnet
    cases force <;> simp only [delete_command] at hcall ⊢
    · rcases h : (promptLoop stdin).2 with _ | bd
      · simp [h] at hcall
      · cases bd
        · simp [h] at hcall
        · simp [h]
    · simp
  · intro n rp; simp [deleteMessage]
  · intro n rp; simp [deleteMessage]
  · intro st n rp h1 h2; simp [deleteMessage, h1, h2]

/-- Witness for C4: the three status classes at concrete invocations. -/
theorem c4_delete_status_classification_witness :
    (delete_command "o/r" ["bug"] ⟨true, [], .response 204 ()⟩).output =
      [deleteMessage 204 "bug" "o/r"] ∧
    deleteMessage 404 "bug" "o/r" =
      "🚫  The label \x27bug\x27 doesn\x27t exist in o/r." ∧
    deleteMessage 500 "bug" "o/r" = "❌  Failed to create label." := by
  refine ⟨?_, ?_, ?_⟩
  · exact c4_delete_status_classification.1 "o/r" ["bug"]
      ⟨true, [], .response 204 ()⟩ 204 (some ()) rfl (by decide)
  · exact (c4_delete_status_classification.2.2.2.1 "bug" "o/r").trans (by decide)
  · exact c4_delete_status_classification.2.2.2.2 500 "bug" "o/r"
      (by decide) (by decide)

/-- Claim C10: a delete invocation whose response status is neither 204 nor
404 prints the generic failure line, and that line is the very string used
by the create command, reading Failed to create label rather than
mentioning deletion. -/
theorem c10_delete_generic_says_create :
    (∀ (repo : String) (nw stdin : List String) (st : Nat) (b : Option Unit),
      st ≠ 204 → st ≠ 404 →
      (delete_command repo nw ⟨true, stdin, .response st b⟩).output =
        [createGenericLine]) ∧
    createGenericLine = "❌  Failed to create label." := by
  constructor
  · intro repo nw stdin st b h1 h2
    simp [delete_command, deleteMessage, h1, h2, createGenericLine]
  · rfl

/-- Witness for C10: a delete invocation answered with status 500 prints
the create wording. -/
theorem c10_delete_generic_says_create_witness :
    (delete_command "o/r" ["bug"] ⟨true, [], .response 500 none⟩).output =
      ["❌  Failed to create label."] := by
  have h := c10_delete_generic_says_create.1 "o/r" ["bug"] [] 500 none
    (by decide) (by decide)
  exact h.trans (by rw [c10_delete_generic_says_create.2])

/-- Counterexample to C2 as stated: `--color` provided with the empty
string is a provided flag, yet the handler takes the usage-error path (the
source tests Python truthiness, not presence) and issues no request. -/
theorem c2_update_usage_counterexample :
    (update_command ["bug"] none (some "") (.response 200 (some ⟨none, []⟩))).netCalls = 0 ∧
    (update_command ["bug"] none (some "") (.response 200 (some ⟨none, []⟩))).exit =
      .exited 1 ∧
    (some "" : Option String) ≠ none := by decide

/-- Claim C2 (amended): when neither `--name` nor `--color` carries a
non-empty value the update handler prints the usage error, exits with code
1 and issues no network call; when at least one carries a non-empty value
it proceeds to the PATCH request. -/
theorem c2_update_requires_field :
    (∀ (lnw : List String) (nameArg : Option (List String))
      (colorArg : Option String) (net : HttpOutcome ErrBody),
      truthyStr colorArg = false → truthyWords nameArg = false →
      update_command lnw nameArg colorArg net =
        { payload := none
          output := ["🚫  You must pass either a --name and/or --color"]
          netCalls := 0, exit := .exited 1 }) ∧
    (∀ (lnw : List String) (nameArg : Option (List String))
      (colorArg : Option String) (net : HttpOutcome ErrBody),
      (truthyStr colorArg || truthyWords nameArg) = true →
      (update_command lnw nameArg colorArg net).netCalls = 1) := by
  constructor
  · intro lnw nameArg colorArg net h1 h2
    simp [update_command, h1, h2]
  · intro lnw nameArg colorArg net h
    simp only [update_command, h, Bool.not_true, Bool.false_eq_true, if_false]
    cases net with
    | transportError => rfl
    | response status body =>
      by_cases hs : status = 200
      · simp [hs]
      · cases body <;> simp [hs]

/-- Witness for C2 (amended): both branches at concrete inputs. -/
theorem c2_update_requires_field_witness :
    (update_command ["bug"] none none (.response 200 (some ⟨none, []⟩)) =
      { payload := none
        output := ["🚫  You must pass either a --name and/or --color"]
        netCalls := 0, exit := .exited 1 }) ∧
    (update_command ["bug"] (some ["x"]) none (.response 200 (some ⟨none, []⟩))).netCalls = 1 := by
  constructor
  · exact c2_update_requires_field.1 ["bug"] none none
      (.response 200 (some ⟨none, []⟩)) (by decide) (by decide)
  · exact c2_update_requires_field.2 ["bug"] (some ["x"]) none
      (.response 200 (some ⟨none, []⟩)) (by decide)

/-- Counterexample to C6 as stated: in an invocation that reaches the PATCH
request with `--name x` and `--color` provided as the empty string, the
payload omits `color` although the flag was provided on the command line. -/
theorem c6_update_payload_counterexample :
    (update_command ["bug"] (some ["x"]) (some "")
        (.response 200 (some ⟨none, []⟩))).payload =
      some { name := some "x", color := none } ∧
    (some "" : Option String) ≠ none := by decide

/-- Claim C6 (amended): for every update invocation that reaches the
network call, the PATCH body contains exactly the fields among name and
color that were provided with a non-empty value (an empty-string value is
dropped like an absent flag), a multi-word name joined by single spaces;
status 200 prints the success confirmation and any other status prints the
failure lines. -/
theorem c6_update_payload :
    ∀ (lnw : List String) (nameArg : Option (List String))
      (colorArg : Option String) (st : Nat) (body : ErrBody),
      (truthyStr colorArg || truthyWords nameArg) = true →
      (update_command lnw nameArg colorArg (.response st (some body))).payload =
        some { name := if truthyWords nameArg then some (joinWords (nameArg.getD []))
                       else none
               color := if truthyStr colorArg then colorArg else none } ∧
      (st = 200 →
        (update_command lnw nameArg colorArg (.response st (some body))).output =
          ["✅  Label successfully updated"]) ∧
      (st ≠ 200 →
        (update_command lnw nameArg colorArg (.response st (some body))).output =
          failureLines updateGenericLine (joinWords lnw) body) := by
  intro lnw nameArg colorArg st body h
  have hpay : (update_command lnw nameArg colorArg (.response st (some body))).payload =
      some { name := if truthyWords nameArg then some (joinWords (nameArg.getD []))
                     else none
             color := if truthyStr colorArg then colorArg else none } := by
    simp only [update_command, h, Bool.not_true, Bool.false_eq_true, if_false]
    by_cases hs : st = 200 <;>
      cases nameArg <;> cases colorArg <;>
        simp_all [truthyWords, truthyStr, joinWords]
  refine ⟨hpay, ?_, ?_⟩
  · intro hs
    simp [update_command, h, hs]
  · intro hs
    simp [update_command, h, hs]

/-- Witness for C6 (amended): a concrete invocation with a two-word name
and no color. -/
theorem c6_update_payload_witness :
    (update_command ["bug"] (some ["help", "wanted"]) none
        (.response 200 (some ⟨none, []⟩))).payload =
      some { name := some "help wanted", color := none } ∧
    (update_command ["bug"] (some ["help", "wanted"]) none
        (.response 200 (some ⟨none, []⟩))).output =
      ["✅  Label successfully updated"] := by
  have h := c6_update_payload ["bug"] (some ["help", "wanted"]) none 200
    ⟨none, []⟩ (by decide)
  exact ⟨h.1.trans (by decide), h.2.1 rfl⟩

/-- Counterexample to C5 as stated: a response whose message reports
Validation Failed but whose error list is empty does not render its (zero)
entries; the source prints the one generic failure line instead. -/
theorem c5_create_failure_counterexample :
    (create_command ["bug"] "ff0000"
        (.response 422 (some ⟨some "Validation Failed", []⟩))).output =
      ["❌  Failed to create label."] ∧
    reportsValidationFailed "Validation Failed" = true ∧
    List.map (parse_validation_error "bug") ([] : List ValidationError) = [] := by
  decide

/-- Claim C5 (amended): create prints the success confirmation on status
201; on any other status the body is decoded and, when its message reports
a validation failure and at least one error entry is present, the entries
are rendered one message per line; otherwise (no validation-failure message,
or no entries) exactly one generic failure line is printed. -/
theorem c5_create_failure_rendering :
    ∀ (nw : List String) (color : String) (st : Nat) (body : ErrBody),
      (st = 201 →
        (create_command nw color (.response st (some body))).output =
          ["✅  Label successfully created"]) ∧
      (st ≠ 201 → reportsValidationFailed (body.message.getD "") = true →
        body.errors ≠ [] →
        (create_command nw color (.response st (some body))).output =
          body.errors.map (parse_validation_error (joinWords nw))) ∧
      (st ≠ 201 →
        (reportsValidationFailed (body.message.getD "") = false ∨ body.errors = []) →
        (create_command nw color (.response st (some body))).output =
          ["❌  Failed to create label."]) := by
  intro nw color st body
  refine ⟨?_, ?_, ?_⟩
  · intro hs
    simp [create_command, hs]
  · intro hs hvf herr
    simp [create_command, hs, failureLines, hvf, herr]
  · intro hs hcase
    rcases hcase with hvf | herr
    · simp [create_command, hs, failureLines, hvf, createGenericLine]
    · simp [create_command, hs, failureLines, herr, createGenericLine]

/-- Witness for C5 (amended): the 201, validation-failure and generic
branches at concrete inputs. -/
theorem c5_create_failure_rendering_witness :
    ((create_command ["bug"] "ff0000" (.response 201 (some ⟨none, []⟩))).output =
      ["✅  Label successfully created"]) ∧
    ((create_command ["bug"] "ff0000"
        (.response 422 (some ⟨some "Validation Failed",
          [⟨"name", "already_exists"⟩]⟩))).output =
      [parse_validation_error "bug" ⟨"name", "already_exists"⟩]) ∧
    ((create_command ["bug"] "ff0000"
        (.response 404 (some ⟨some "Not Found", []⟩))).output =
      ["❌  Failed to create label."]) := by
  refine ⟨?_, ?_, ?_⟩
  · exact (c5_create_failure_rendering ["bug"] "ff0000" 201 ⟨none, []⟩).1 rfl
  · have h := (c5_create_failure_rendering ["bug"] "ff0000" 422
      ⟨some "Validation Failed", [⟨"name", "already_exists"⟩]⟩).2.1
      (by decide) (by decide) (by decide)
    exact h.trans (by decide)
  · exact (c5_create_failure_rendering ["bug"] "ff0000" 404
      ⟨some "Not Found", []⟩).2.2 (by decide) (Or.inl (by decide))

/-! ### Lemmas about the centering width -/

/-- The accumulator form of the Python max-by-length computes the maximum
of the accumulator length and all list lengths. -/
theorem pyMaxKeyLen_length (l : List String) : ∀ a : String,
    (pyMaxKeyLen a l).length = max a.length ((l.map String.length).foldr max 0) := by
  induction l with
  | nil => intro a; simp [pyMaxKeyLen]
  | cons x xs ih =>
    intro a
    simp only [pyMaxKeyLen, List.map_cons, List.foldr_cons]
    rw [ih]
    rcases lt_or_le a.length x.length with h | h
    · simp only [if_pos h]
      rw [← max_assoc, max_eq_right h.le]
    · simp only [not_lt.mpr h, if_neg, ← max_assoc, max_eq_left h]
      simp [not_lt.mpr h]

/-- The centering width of a non-empty response is the maximum of the name
lengths. -/
theorem listSpacing_eq_max (res : List Label) (h : res ≠ []) :
    listSpacing res = (res.map fun l => l.name.length).foldr max 0 := by
  cases res with
  | nil => exact absurd rfl h
  | cons r rs =>
    simp only [listSpacing, List.map_cons, pyMaxKeyLen_length, List.foldr_cons]
    rw [List.map_map]
    rfl

/-- Every member of a list of naturals is bounded by the max fold. -/
theorem mem_le_foldr_max {l : List Nat} {a : Nat} (h : a ∈ l) :
    a ≤ l.foldr max 0 := by
  induction l with
  | nil => cases h
  | cons x xs ih =>
    rcases List.mem_cons.mp h with rfl | h
    · exact le_max_left _ _
    · exact le_trans (ih h) (le_max_right _ _)

/-- The max fold of a list of naturals is bounded by any common bound. -/
theorem foldr_max_le {l : List Nat} {b : Nat} (h : ∀ a ∈ l, a ≤ b) :
    l.foldr max 0 ≤ b := by
  induction l with
  | nil => exact Nat.zero_le b
  | cons x xs ih =>
    exact max_le (h x (List.mem_cons_self x xs))
      (ih fun a ha => h a (List.mem_cons_of_mem x ha))

/-- Claim C3: for every non-empty list response, the width used to center
each printed label name is the maximum length among all label names of the
response; the width is invariant under permutation of the response, and a
name strictly longer than all others realises it. -/
theorem c3_list_centering_width :
    ∀ (sc : Bool) (fromHex : String → Nat) (textColor : String → String)
      (st : Nat) (res : List Label), res ≠ [] →
      ((list_command sc fromHex textColor (.response st (some res))).rows =
        res.map fun row =>
          { bgCode := fromHex row.color
            fgColor := textColor row.color
            centered := pyCenter row.name (listSpacing res)
            suffix := if sc then "[#" ++ row.color ++ "]" else "" }) ∧
      listSpacing res = (res.map fun l => l.name.length).foldr max 0 ∧
      (∀ res' : List Label, res.Perm res' → listSpacing res = listSpacing res') ∧
      (∀ n, n ∈ res.map Label.name →
        (∀ m ∈ res.map Label.name, m ≠ n → m.length < n.length) →
        listSpacing res = n.length) := by
  intro sc fromHex textColor st res hne
  refine ⟨?_, listSpacing_eq_max res hne, ?_, ?_⟩
  · have hlen : res.length ≠ 0 := fun h => hne (List.length_eq_zero.mp h)
    simp [list_command, hlen]
  · intro res' hperm
    have hne' : res' ≠ [] := fun h => hne (List.Perm.eq_nil (h ▸ hperm))
    rw [listSpacing_eq_max res hne, listSpacing_eq_max res' hne']
    exact @List.Perm.foldr_op_eq Nat max _ _ _ _ 0 (hperm.map fun l => l.name.length)
  · intro n hn hmax
    rw [listSpacing_eq_max res hne]
    have hmem : n.length ∈ res.map fun l => l.name.length := by
      obtain ⟨lb, hlb, rfl⟩ := List.mem_map.mp hn
      exact List.mem_map.mpr ⟨lb, hlb, rfl⟩
    refine le_antisymm (foldr_max_le ?_) (mem_le_foldr_max hmem)
    intro a ha
    obtain ⟨lb, hlb, rfl⟩ := List.mem_map.mp ha
    by_cases hEq : lb.name = n
    · exact hEq ▸ le_refl _
    · exact (hmax lb.name (List.mem_map.mpr ⟨lb, hlb, rfl⟩) hEq).le

/-- Witness for C3: the two-label response from the spec, where the width
is the length 11 of the strictly longest name. -/
theorem c3_list_centering_width_witness :
    listSpacing [⟨"bug", "ff0000"⟩, ⟨"enhancement", "00ff00"⟩] =
      ("enhancement" : String).length ∧
    listSpacing [⟨"bug", "ff0000"⟩, ⟨"enhancement", "00ff00"⟩] = 11 := by
  have h := (c3_list_centering_width false (fun _ => 0) (fun _ => "white") 200
      [⟨"bug", "ff0000"⟩, ⟨"enhancement", "00ff00"⟩] (by decide)).2.2.2
      "enhancement" (by decide) (by decide)
  exact ⟨h, h.trans (by decide)⟩

/-- Claim C7: a list invocation whose response holds zero labels prints the
no-labels message, prints no label rows, and terminates through an explicit
exit with code 0. -/
theorem c7_list_empty :
    ∀ (sc : Bool) (fromHex : String → Nat) (textColor : String → String) (st : Nat),
      list_command sc fromHex textColor (.response st (some [])) =
        { rows := [], messages := ["❗  No labels found"], netCalls := 1
          exit := .exited 0 } := by
  intro sc fromHex textColor st
  simp [list_command]

/-! ### Lemmas about the token round trip -/

/-- Stripping from the right absorbs a trailing newline. -/
theorem rstripL_append_newline (l : List Char) :
    rstripL (l ++ ['\n']) = rstripL l := by
  simp [rstripL, List.dropWhile, pyIsSpace]

/-- Python strip absorbs a trailing newline. -/
theorem pyStrip_append_newline (s : String) :
    pyStrip (s ++ "\n") = pyStrip s := by
  show (⟨lstripL (rstripL (s ++ "\n").data)⟩ : String) = ⟨lstripL (rstripL s.data)⟩
  rw [String.data_append]
  rw [show ("\n" : String).data = ['\n'] from rfl]
  rw [rstripL_append_newline]

/-- Counterexample to C8 as stated: for the token with a trailing space the
file round trip returns the stripped token, not the token that was saved. -/
theorem c8_auth_roundtrip_counterexample :
    (auth_command "a ").fileContents = "a \n" ∧
    get_access_token ((auth_command "a ").fileContents) = "a" ∧
    ("a" : String) ≠ "a " := by decide

/-- Claim C8 (amended): the auth command overwrites the token file with
exactly the token followed by a single newline, and for every token free of
leading and trailing whitespace the subsequent load (read and strip)
returns exactly the token that was saved. -/
theorem c8_auth_roundtrip :
    ∀ token : String,
      (auth_command token).fileContents = token ++ "\n" ∧
      (pyStrip token = token →
        get_access_token ((auth_command token).fileContents) = token) := by
  intro token
  refine ⟨rfl, fun h => ?_⟩
  show pyStrip (token ++ "\n") = token
  rw [pyStrip_append_newline, h]

/-- Witness for C8 (amended): a concrete whitespace-free token survives the
round trip. -/
theorem c8_auth_roundtrip_witness :
    get_access_token ((auth_command "abc123").fileContents) = "abc123" := by
  exact (c8_auth_roundtrip "abc123").2 (by decide)

/-- Counterexample to C9 as stated: a transport failure during the list
GET propagates out of the handler as an uncaught exception rather than a
rendered message. -/
theorem c9_crash_counterexample :
    (list_command false (fun _ => 0) (fun _ => "white") .transportError).exit =
      .crashed "ConnectionError" := by decide

/-- Claim C9 (amended): the handlers catch no exceptions; a failure
signalled only through the HTTP status of a decodable response is rendered
as a message and never crashes, but a transport error raised during any
network call, or an undecodable response body, propagates uncaught out of
the handler. -/
theorem c9_handler_exception_policy :
    (∀ (sc : Bool) (fromHex : String → Nat) (textColor : String → String)
      (st : Nat) (res : List Label),
      (list_command sc fromHex textColor (.response st (some res))).exit = .exited 0 ∨
      (list_command sc fromHex textColor (.response st (some res))).exit = .normalRet) ∧
    (∀ (nw : List String) (color : String) (st : Nat) (body : ErrBody),
      (create_command nw color (.response st (some body))).exit = .normalRet) ∧
    (∀ (lnw : List String) (nameArg : Option (List String))
      (colorArg : Option String) (st : Nat) (body : ErrBody),
      (update_command lnw nameArg colorArg (.response st (some body))).exit =
        .normalRet ∨
      (update_command lnw nameArg colorArg (.response st (some body))).exit =
        .exited 1) ∧
    (∀ (repo : String) (nw stdin : List String) (st : Nat) (b : Option Unit),
      (delete_command repo nw ⟨true, stdin, .response st b⟩).exit = .normalRet) ∧
    (∀ (sc : Bool) (fromHex : String → Nat) (textColor : String → String),
      (list_command sc fromHex textColor .transportError).exit =
        .crashed "ConnectionError") ∧
    (∀ (nw : List String) (color : String) (st : Nat),
      (create_command nw color .transportError).exit = .crashed "ConnectionError" ∧
      (st ≠ 201 →
        (create_command nw color (.response st none)).exit =
          .crashed "JSONDecodeError")) := by
  refine ⟨?_, ?_, ?_, ?_, ?_, ?_⟩
  · intro sc fromHex textColor st res
    rcases res with _ | ⟨r, rs⟩
    · left; simp [list_command]
    · right; simp [list_command]
  · intro nw color st body
    by_cases hs : st = 201 <;> simp [create_command, hs]
  · intro lnw nameArg colorArg st body
    by_cases hp : (truthyStr colorArg || truthyWords nameArg) = true
    · by_cases hs : st = 200
      · left; simp [update_command, hp, hs]
      · left; simp [update_command, hp, hs]
    · right
      simp only [Bool.not_eq_true] at hp
      simp [update_command, hp]
  · intro repo nw stdin st b
    by_cases hs : st = 204
    · simp [delete_command, hs]
    · by_cases hs' : st = 404 <;> simp [delete_command, hs, hs']
  · intro sc fromHex textColor
    rfl
  · intro nw color st
    refine ⟨rfl, fun hs => ?_⟩
    simp [create_command, hs]

/-- Witness for C9 (amended): the decode-failure conjunct at a concrete
status. -/
theorem c9_handler_exception_policy_witness :
    (create_command ["bug"] "ff0000" (.response 500 none)).exit =
      .crashed "JSONDecodeError" := by
  exact (c9_handler_exception_policy.2.2.2.2.2 ["bug"] "ff0000" 500).2 (by decide)

end Glm
